import Mathlib

/-!
Verification of the Winner Bike chat orchestration service.

This file shallowly embeds the Python code of the repository
(src/main.py and src/lib/tools.py) in Lean 4 and proves properties of
the embedded definitions.  Conventions of the embedding:

* Python strings are Lean `String`; raw scanning (substring search,
  stripping, JSON parsing) is done on `List Char` so that everything
  evaluates in the kernel.
* Python values that flow through `json.loads` / `json.dumps` are the
  inductive `JVal`.  Numbers are kept as raw tokens, which is all the
  code ever does with them (it only re-serializes).
* Fallible Python code is `Except PyErr`; an uncaught exception is an
  `.error` value that callers propagate unless the source has an
  explicit `try/except`.
* `dict.get(k, default)` on possibly-missing keys is modelled with
  `Option` fields plus `Option.getD`.
* `str.lower` / `str.upper` are modelled by `pyLower` / `pyUpper`,
  which case-map character-wise over the ASCII range; the inventory
  model names handled by this service are ASCII (Thai text has no
  letter case), where this agrees with Python.
-/

/-- A JSON value as produced by `json.loads`.  Numeric literals are kept
as their raw source token: the program never inspects numbers, it only
re-serializes them with `json.dumps`. -/
inductive JVal where
  | null : JVal
  | bool : Bool → JVal
  | num : String → JVal
  | str : String → JVal
  | arr : List JVal → JVal
  | obj : List (String × JVal) → JVal

/-- Python dictionary semantics keeps the last binding of a duplicated
key, so subscript lookup takes the last matching pair. -/
def jlookup (kvs : List (String × JVal)) (k : String) : Option JVal :=
  match kvs with
  | [] => none
  | (k0, v0) :: rest =>
    match jlookup rest k with
    | some v => some v
    | none => if k0 == k then some v0 else none

/-- Model of Python `str.lower` (ASCII case mapping). -/
def pyLower (s : String) : String := String.mk (s.data.map Char.toLower)

/-- Model of Python `str.upper` (ASCII case mapping). -/
def pyUpper (s : String) : String := String.mk (s.data.map Char.toUpper)

/-- Whitespace accepted between JSON tokens (as in Python json). -/
def jsonWs (c : Char) : Bool :=
  c == ' ' || c == '\t' || c == '\n' || c == '\r'

/-- Characters removed by Python `str.strip()`. -/
def pySpace (c : Char) : Bool :=
  c == ' ' || c == '\t' || c == '\n' || c == '\r' || c == '\x0b' || c == '\x0c'

/-- Python `str.strip()` on a character list. -/
def pyStrip (cs : List Char) : List Char :=
  ((cs.dropWhile pySpace).reverse.dropWhile pySpace).reverse

/-- Decides whether the pattern is a prefix of the text. -/
def isPrefixChars : List Char → List Char → Bool
  | [], _ => true
  | _ :: _, [] => false
  | a :: as, b :: bs => a == b && isPrefixChars as bs

/-- Index of the first occurrence of a pattern in a text, if any. -/
def findSub (pat : List Char) : List Char → Option Nat
  | [] => if pat.isEmpty then some 0 else none
  | c :: cs =>
    if isPrefixChars pat (c :: cs) then some 0
    else (findSub pat cs).map (fun n => n + 1)

/-- Value of one hexadecimal digit. -/
def hexVal (c : Char) : Option Nat :=
  if '0' ≤ c ∧ c ≤ '9' then some (c.toNat - '0'.toNat)
  else if 'a' ≤ c ∧ c ≤ 'f' then some (c.toNat - 'a'.toNat + 10)
  else if 'A' ≤ c ∧ c ≤ 'F' then some (c.toNat - 'A'.toNat + 10)
  else none

/-- Scans a JSON string body after its opening quote, decoding escapes,
returning the decoded characters and the remaining input. -/
def scanStringBody : Nat → List Char → Option (List Char × List Char)
  | 0, _ => none
  | _ + 1, [] => none
  | _ + 1, '"' :: rest => some ([], rest)
  | fuel + 1, '\\' :: rest =>
    match rest with
    | '"' :: rs => (scanStringBody fuel rs).map (fun p => ('"' :: p.1, p.2))
    | '\\' :: rs => (scanStringBody fuel rs).map (fun p => ('\\' :: p.1, p.2))
    | '/' :: rs => (scanStringBody fuel rs).map (fun p => ('/' :: p.1, p.2))
    | 'b' :: rs => (scanStringBody fuel rs).map (fun p => ('\x08' :: p.1, p.2))
    | 'f' :: rs => (scanStringBody fuel rs).map (fun p => ('\x0c' :: p.1, p.2))
    | 'n' :: rs => (scanStringBody fuel rs).map (fun p => ('\n' :: p.1, p.2))
    | 'r' :: rs => (scanStringBody fuel rs).map (fun p => ('\r' :: p.1, p.2))
    | 't' :: rs => (scanStringBody fuel rs).map (fun p => ('\t' :: p.1, p.2))
    | 'u' :: h1 :: h2 :: h3 :: h4 :: rs =>
      match hexVal h1, hexVal h2, hexVal h3, hexVal h4 with
      | some a, some b, some c, some d =>
        let n := ((a * 16 + b) * 16 + c) * 16 + d
        let ch := if h : n.isValidChar then Char.ofNatAux n h else ' '
        (scanStringBody fuel rs).map (fun p => (ch :: p.1, p.2))
      | _, _, _, _ => none
    | _ => none
  | fuel + 1, c :: rest => (scanStringBody fuel rest).map (fun p => (c :: p.1, p.2))

/-- Characters that may continue a JSON number token. -/
def numTokenChar (c : Char) : Bool :=
  c.isDigit || c == '-' || c == '+' || c == '.' || c == 'e' || c == 'E'

mutual

/-- Fuel-indexed recursive-descent JSON value parser, modelling
`json.loads`.  The number grammar is slightly lenient (it collects a
token of number characters), which is immaterial here: every parse
result that is not an object with the expected keys is handled
identically downstream. -/
def parseVal : Nat → List Char → Option (JVal × List Char)
  | 0, _ => none
  | fuel + 1, input =>
    match input.dropWhile jsonWs with
    | [] => none
    | '"' :: rest =>
      (scanStringBody (fuel + 1) rest).map (fun p => (JVal.str (String.mk p.1), p.2))
    | '\x7b' :: rest =>
      (match (rest.dropWhile jsonWs) with
       | '\x7d' :: rs => some (JVal.obj [], rs)
       | other => (parseMembers fuel other).map (fun p => (JVal.obj p.1, p.2)))
    | '[' :: rest =>
      (match (rest.dropWhile jsonWs) with
       | ']' :: rs => some (JVal.arr [], rs)
       | other => (parseElements fuel other).map (fun p => (JVal.arr p.1, p.2)))
    | c :: rest =>
      if isPrefixChars "null".data (c :: rest) then
        some (JVal.null, rest.drop 3)
      else if isPrefixChars "true".data (c :: rest) then
        some (JVal.bool true, rest.drop 3)
      else if isPrefixChars "false".data (c :: rest) then
        some (JVal.bool false, rest.drop 4)
      else if isPrefixChars "NaN".data (c :: rest) then
        some (JVal.num "NaN", rest.drop 2)
      else if isPrefixChars "Infinity".data (c :: rest) then
        some (JVal.num "Infinity", rest.drop 7)
      else if isPrefixChars "-Infinity".data (c :: rest) then
        some (JVal.num "-Infinity", rest.drop 8)
      else if c.isDigit || c == '-' then
        let tok := (c :: rest).takeWhile numTokenChar
        some (JVal.num (String.mk tok), (c :: rest).dropWhile numTokenChar)
      else none

/-- Parses the members of a JSON object after its opening brace. -/
def parseMembers : Nat → List Char → Option (List (String × JVal) × List Char)
  | 0, _ => none
  | fuel + 1, input =>
    match input.dropWhile jsonWs with
    | '"' :: rest =>
      match scanStringBody (fuel + 1) rest with
      | none => none
      | some (keyChars, afterKey) =>
        match afterKey.dropWhile jsonWs with
        | ':' :: afterColon =>
          match parseVal fuel afterColon with
          | none => none
          | some (v, afterVal) =>
            match afterVal.dropWhile jsonWs with
            | ',' :: afterComma =>
              (parseMembers fuel afterComma).map
                (fun p => ((String.mk keyChars, v) :: p.1, p.2))
            | '\x7d' :: rs => some ([(String.mk keyChars, v)], rs)
            | _ => none
        | _ => none
    | _ => none

/-- Parses the elements of a JSON array after its opening bracket. -/
def parseElements : Nat → List Char → Option (List JVal × List Char)
  | 0, _ => none
  | fuel + 1, input =>
    match parseVal fuel input with
    | none => none
    | some (v, afterVal) =>
      match afterVal.dropWhile jsonWs with
      | ',' :: afterComma =>
        (parseElements fuel afterComma).map (fun p => (v :: p.1, p.2))
      | ']' :: rs => some ([v], rs)
      | _ => none

end

/-- Model of `json.loads`: parse one value, allow trailing whitespace,
reject trailing garbage. -/
def parseJson (s : String) : Option JVal :=
  match parseVal (2 * s.data.length + 4) s.data with
  | none => none
  | some (v, rest) => if (rest.dropWhile jsonWs).isEmpty then some v else none

/-- Escapes one character for JSON serialization. -/
def escapeJsonChar (c : Char) : String :=
  if c == '"' then "\\\""
  else if c == '\\' then "\\\\"
  else if c == '\n' then "\\n"
  else if c == '\t' then "\\t"
  else if c == '\r' then "\\r"
  else String.mk [c]

/-- Serializes a string literal as `json.dumps` does. -/
def dumpStr (s : String) : String :=
  "\"" ++ String.join (s.data.map escapeJsonChar) ++ "\""

mutual

/-- Model of `json.dumps` with its default separators. -/
def dumps : JVal → String
  | JVal.null => "null"
  | JVal.bool true => "true"
  | JVal.bool false => "false"
  | JVal.num raw => raw
  | JVal.str s => dumpStr s
  | JVal.arr xs => "[" ++ dumpsElems xs ++ "]"
  | JVal.obj kvs => "\x7b" ++ dumpsMembers kvs ++ "\x7d"

/-- Serializes array elements joined by a comma and a space. -/
def dumpsElems : List JVal → String
  | [] => ""
  | [x] => dumps x
  | x :: y :: rest => dumps x ++ ", " ++ dumpsElems (y :: rest)

/-- Serializes object members joined by a comma and a space. -/
def dumpsMembers : List (String × JVal) → String
  | [] => ""
  | [(k, v)] => dumpStr k ++ ": " ++ dumps v
  | (k, v) :: m :: rest => dumpStr k ++ ": " ++ dumps v ++ ", " ++ dumpsMembers (m :: rest)

end

/-!
Data model of the service.  Inventory rows and chat-history rows arrive
as JSON dictionaries that the Python code reads with `dict.get` and
default values, so every field is optional here.  `price` is kept in its
rendered form (the code only ever interpolates it into f-strings).
-/

/-- One row of the request field `Data_model_stock_price`. -/
structure StockItem where
  product_name : Option String
  price : Option String
  stock_quantity : Option Int
deriving DecidableEq

/-- One row of the request field `chat_history`. -/
structure ChatMsg where
  role : Option String
  content : Option String
deriving DecidableEq

/-- The body of a POST to the `/run_chat` endpoint. -/
structure RunChatRequest where
  message : String
  Data_model_stock_price : List StockItem
  chat_history : List ChatMsg
deriving DecidableEq

/-- Python exceptions that the embedded code can raise. -/
inductive PyErr where
  | jsonDecode : PyErr
  | keyError : PyErr
  | attributeError : PyErr
  | apiError : String → PyErr
  | toolError : String → PyErr
deriving DecidableEq

/-- The matching test of both stock-lookup loops:
`item.get("product_name", "").lower() == model_name.lower()`. -/
def matchesName (model_name : String) (item : StockItem) : Bool :=
  pyLower (item.product_name.getD "") == pyLower model_name

/-- The in-stock answer of `check_stock_logic` in src/main.py. -/
def availableLine (model_name price : String) (stock : Int) : String :=
  s!"Model: {model_name}, Price: {price}, Stock: {stock}"

/-- The out-of-stock answer of `check_stock_logic` in src/main.py, an
f-string triple-quoted block interpolating `item["product_name"]`. -/
def outOfStockBlock (pname : String) : String :=
  "\n                \x7b\n                    \"model\": \"" ++ pname ++
  "\",\n                    \"status\": \"Out of Stock\",\n                    \"SYSTEM_INSTRUCTION\": \"The product is out of stock. STOP! Do not apologize yet. You MUST immediately call \x27lightrag_tool\x27 with query \x27" ++
  pname ++
  " competitors\x27 to find an alternative product. Do this BEFORE replying to the user.\"\n                \x7d\n                "

/-- The not-found answer of `check_stock_logic` in src/main.py. -/
def notFoundLine (model_name : String) : String :=
  s!"Model: {model_name} not found in inventory."

/-- The branch of src/main.py `check_stock_logic` taken when an
inventory item matches the query.  The out-of-stock branch subscripts
`item["product_name"]` directly, which raises `KeyError` when the key is
absent (the loop matched it through `.get` with default `""`). -/
def stockHitMain (model_name : String) (item : StockItem) : Except PyErr String :=
  let stock := item.stock_quantity.getD 0
  let price := item.price.getD "N/A"
  if stock > 0 then Except.ok (availableLine model_name price stock)
  else
    match item.product_name with
    | some pname => Except.ok (outOfStockBlock pname)
    | none => Except.error PyErr.keyError

/-- Embeds `check_stock_logic` of src/main.py.  The Python function
reads the module-level global `product_stock_price`; the embedding
passes that global explicitly as the first argument. -/
def check_stock_logic (product_stock_price : List StockItem) (model_name : String) :
    Except PyErr String :=
  match product_stock_price with
  | [] => Except.ok (notFoundLine model_name)
  | item :: rest =>
    if matchesName model_name item then stockHitMain model_name item
    else check_stock_logic rest model_name

/-- The in-stock / out-of-stock answers of the `check_stock_logic`
closure made by `create_check_stock_logic` in src/lib/tools.py. -/
def stockHitTools (model_name : String) (item : StockItem) : String :=
  let stock := item.stock_quantity.getD 0
  let price := item.price.getD "N/A"
  if stock > 0 then
    s!"✅ Available | Model: {model_name} | Price: {price} บาท | Stock: {stock} units"
  else
    s!"❌ Out of Stock | Model: {model_name} | INSTRUCTION: Call lightrag_tool(query=\x27{model_name} alternatives\x27) immediately."

/-- One line of the full-inventory listing of src/lib/tools.py. -/
def inventoryLine (item : StockItem) : String :=
  let m := item.product_name.getD "Unknown Model"
  let p := item.price.getD "N/A"
  let st := item.stock_quantity.getD 0
  let status := if st > 0 then "มีของ" else "หมด"
  s!"- {m}: {p} บาท ({status})"

/-- The full-inventory listing built by the `ALL` branch of
src/lib/tools.py. -/
def fullInventoryListing (inventory_data : List StockItem) : String :=
  "ตอนนี้หน้าร้านมีตามนี้ครับ:\n" ++
    String.intercalate "\n" (inventory_data.map inventoryLine)

/-- The not-found answer of src/lib/tools.py `check_stock_logic`. -/
def notFoundLineTools (model_name : String) : String :=
  s!"❓ Not Found | Model: {model_name} not in inventory."

/-- The `for` loop inside the closure made by
`create_check_stock_logic`: the first parameter is the whole captured
inventory (used by the `ALL` branch), the second is the suffix still
being iterated.  Note the `ALL` test is an `elif` inside the loop body,
so it is only reachable while some item remains. -/
def checkStockToolsLoop (inventory_data : List StockItem) :
    List StockItem → String → String
  | [], model_name => notFoundLineTools model_name
  | item :: rest, model_name =>
    if matchesName model_name item then stockHitTools model_name item
    else if pyUpper model_name == "ALL" then fullInventoryListing inventory_data
    else checkStockToolsLoop inventory_data rest model_name

/-- Embeds the closure returned by `create_check_stock_logic` in
src/lib/tools.py, applied to a query. -/
def create_check_stock_logic (inventory_data : List StockItem) (model_name : String) :
    String :=
  checkStockToolsLoop inventory_data inventory_data model_name

/-!
Model of the chat-completion side: tool calls, transcript messages, the
model oracle, and the fallback tool-call extraction.
-/

/-- A tool call object as the executor consumes it.  `name` is a `JVal`
because the fallback path builds it from `tool_data["name"]`, which any
JSON value can occupy; native calls carry `JVal.str`.  `arguments` is a
JSON-encoded string, exactly as in the OpenAI wire format and in
`FakeToolCall` (which stores `json.dumps(args)`). -/
structure ToolCall where
  id : String
  name : JVal
  arguments : String

/-- A transcript message of the `messages` list in `run_chat`. -/
inductive Msg where
  | system : String → Msg
  | user : String → Msg
  | assistant : Option String → List ToolCall → Msg
  | tool : (tool_call_id : String) → (name : JVal) → (content : String) → Msg

/-- One chat completion returned by `client.chat.completions.create`:
the message content and its native structured tool calls (a `None`
field from the API is the empty list). -/
structure Completion where
  content : Option String
  tool_calls : List ToolCall

/-- The external world of one `run_chat` request: the k-th
chat-completion call and the LightRAG query tool, each able to raise. -/
structure Env where
  complete : Nat → Except PyErr Completion
  lightrag : Option JVal → Except PyErr String

/-- What a `run_chat` invocation produces: either the returned response
dictionary content, or the implicit Python `None` obtained by falling
off the `while` loop. -/
inductive ChatResult where
  | response : Option String → ChatResult
  | fellOff : ChatResult

/-- The literal `<tool_call>` opening tag. -/
def openTag : List Char := "<tool_call>".data

/-- The literal `</tool_call>` closing tag. -/
def closeTag : List Char := "</tool_call>".data

/-- Semantics of `re.search(r"<tool_call>(.*?)</tool_call>", content,
re.DOTALL)`: the match starts at the first opening tag, and the lazy
group extends to the first closing tag after it. -/
def extractBlock (cs : List Char) : Option (List Char) :=
  match findSub openTag cs with
  | none => none
  | some i =>
    let after := cs.drop (i + openTag.length)
    match findSub closeTag after with
    | none => none
    | some j => some (after.take j)

/-- Embeds `check_tool_call_in_text` (identical logic in src/main.py
and src/lib/tools.py).  Every failure path — native calls present,
falsy or tag-free content, no regex match, `json.loads` error, or a
parse result without subscriptable `"name"`/`"arguments"` keys (the
`except Exception` catches the `KeyError`/`TypeError` too) — returns
`None`. -/
def check_tool_call_in_text (content : Option String) (tool_calls : List ToolCall) :
    Option (List ToolCall) :=
  match content with
  | none => none
  | some s =>
    if tool_calls.isEmpty && !s.data.isEmpty && (findSub openTag s.data).isSome then
      match extractBlock s.data with
      | none => none
      | some block =>
        match parseJson (String.mk (pyStrip block)) with
        | none => none
        | some tool_data =>
          match tool_data with
          | JVal.obj kvs =>
            (match jlookup kvs "name", jlookup kvs "arguments" with
             | some nm, some args => some [⟨"call_fake_123", nm, dumps args⟩]
             | _, _ => none)
          | _ => none
    else none

/-- Python truthiness of the `tool_calls` variable after extraction. -/
def truthyCalls : Option (List ToolCall) → List ToolCall
  | none => []
  | some cs => cs

/-- Python `==` between a tool name value and a string literal. -/
def isStrEq (v : JVal) (s : String) : Bool :=
  match v with
  | JVal.str t => t == s
  | _ => false

/-- Python `function_args.get(key)`: dictionary lookup with `None`
default; on a non-dictionary it raises `AttributeError`. -/
def pyGet (v : JVal) (k : String) : Except PyErr (Option JVal) :=
  match v with
  | JVal.obj kvs => Except.ok (jlookup kvs k)
  | _ => Except.error PyErr.attributeError

/-- Applies src/main.py `check_stock_logic` to the extracted
`model_name` argument; `model_name.lower()` raises `AttributeError`
unless the argument is a string. -/
def checkStockCall (inv : List StockItem) (v : Option JVal) : Except PyErr String :=
  match v with
  | some (JVal.str s) => check_stock_logic inv s
  | _ => Except.error PyErr.attributeError

/-- Embeds the tool-execution `for` loop of `run_chat` (src/main.py
lines 307-333): `json.loads` the arguments, dispatch on the tool name
(`lightrag_tool`, then `check_stock_logic`, otherwise no branch at
all), append one tool-role message per dispatched call.  The loop body
contains no `try/except`, so any raise aborts the whole batch. -/
def execToolCalls (lightrag : Option JVal → Except PyErr String)
    (inv : List StockItem) :
    List ToolCall → List Msg → Except PyErr (List Msg)
  | [], messages => Except.ok messages
  | tc :: rest, messages =>
    match parseJson tc.arguments with
    | none => Except.error PyErr.jsonDecode
    | some function_args =>
      if isStrEq tc.name "lightrag_tool" then
        match pyGet function_args "query" with
        | Except.error e => Except.error e
        | Except.ok q =>
          match lightrag q with
          | Except.error e => Except.error e
          | Except.ok out =>
            execToolCalls lightrag inv rest (messages ++ [Msg.tool tc.id tc.name out])
      else if isStrEq tc.name "check_stock_logic" then
        match pyGet function_args "model_name" with
        | Except.error e => Except.error e
        | Except.ok mv =>
          match checkStockCall inv mv with
          | Except.error e => Except.error e
          | Except.ok out =>
            execToolCalls lightrag inv rest (messages ++ [Msg.tool tc.id tc.name out])
      else execToolCalls lightrag inv rest messages

/-- The system prompt of `run_chat` in src/main.py. -/
def system_prompt_for_typhoon : String :=
  "\n    ### ROLE & PERSONA\n    You are the \"Technical Motorcycle & Parts Consultant & Seller\" at \"Winner Bike\".\n    - Vibe: Pro mechanic, honest, friendly (Thai local shop style).\n    - Goal: Help customers find the right bike. **Check stock first, then sell.**\n\n    ### TOOLS PROTOCOL (STRICT ORDER)\n    You have 2 tools. Do NOT hallucinate info.\n    1. `check_stock_logic`: USE FIRST for availability/price questions.\n    2. `lightrag_tool`: USE SECOND for specs, details, or finding ALTERNATIVES.\n\n    ### WORKFLOW SCENARIOS\n\n    1. **CASE: CHECK STOCK (ถามสต็อก/มีของไหม/ราคาเท่าไหร่)**\n    - **Step 1:** Call `check_stock_logic(model_name=\"...\")`.\n    - **Step 2:** Observe the tool result:\n        - **IF status=\"Available\":**\n        - Say: \"มีของครับพี่ [Model Name] ที่ Winner Bike ยังมีสต็อกครับ ราคา [Price] บาท\"\n        - Action: **STOP.** Wait for user to ask for specs.\n        - **IF status=\"Out of Stock\" OR \"Not Found\":**\n        - Say: \"ขออภัยครับ [Model Name] ตอนนี้ที่ร้านหมดชั่วคราวครับ\"\n        - **Action:** IMMEDIATELY call `lightrag_tool(query=\"[Model Name] competitors/alternatives\")` to find a substitute.\n        - **Step 3:** Recommend the substitute found by LightRAG.\n        - Response: \"...แต่ผมแนะนำลองดูเป็น [Alternative Model] ไหมครับ สเปคใกล้กันมาก พี่สนใจให้ผมเล่าตัวนี้แทนไหม?\"\n\n    2. **CASE: EXPLAIN PRODUCT (ถามสเปค/ดียังไง)**\n    - **Trigger:** \"ขอสเปค\", \"ดียังไง\", \"เล่าหน่อย\".\n    - **Action:** Call `lightrag_tool(query=\"[Model] specs features\")`.\n    - **Response:** Summarize benefits (Real-world usage > technical numbers).\n\n    3. **CASE: RECOMMENDATION (ถามแนะนำรถ)**\n    - **Trigger:** \"ขับในเมืองรุ่นไหนดี\", \"รถออกทริป\".\n    - **Action:** Call `lightrag_tool(query=\"best motorcycle for [usage]\")`.\n    - **Constraint:** Only recommend models returned by the tool.\n\n    ### TONE & RULES\n    - Language: Thai (Natural, Polite \"ครับ\").\n    - Identity: Use \"ผม\" or \"ทางร้าน Winner Bike\".\n    - **Rule:** If stock tool says 0, you MUST say \"Out of stock\". Do not lie.\n    "

/-- Python f-string rendering of an optional string (`None` prints as
the text `None`). -/
def pyFormatOpt : Option String → String
  | none => "None"
  | some s => s

/-- One line of the formatted conversation history. -/
def historyLine (m : ChatMsg) : String :=
  let role := m.role.getD "Unknown"
  let content := m.content.getD ""
  let display_role := if pyLower role == "user" then "User" else "AI"
  s!"{display_role}: {content}\n"

/-- Embeds `create_chat_history` of src/main.py. -/
def create_chat_history (chat : List ChatMsg) : String :=
  if chat.isEmpty then ""
  else
    "--- Conversation History ---\n" ++ String.join (chat.map historyLine) ++
      "----------------------------\n"

/-- The initial `messages` list built by `run_chat`. -/
def initMessages (query : RunChatRequest) : List Msg :=
  [Msg.system system_prompt_for_typhoon,
   Msg.user ("Here is the chat history:" ++ create_chat_history query.chat_history),
   Msg.user query.message]

/-- The `refine_instruction` f-string of `run_chat`, interpolating the
draft content of the last completion. -/
def refine_instruction (draft : Option String) : String :=
  "\n\n\n                Below is accurate raw information (Draft):\n                \"" ++
  pyFormatOpt draft ++
  "\"\n\n                Task:\n                Rewrite the draft into a Thai customer chat response.\n\n                Rules:\n                - Answer only what the customer asked.\n                - Keep the response short and direct.\n                - Do not add explanations unless required to answer the question.\n                - Do not sound like an advertisement.\n                - Do not introduce new topics on your own.\n                - Provide deeper technical details only if the customer asks a follow-up question.\n            "

/-- The loop bound `MAX_LOOP` of `run_chat`. -/
def MAX_LOOP : Nat := 5

/-- The response-refinement stage of `run_chat`: a second completion
call whose content is returned as the response.  There is no
`try/except` around it, so a model error propagates. -/
def finalizeResponse (env : Env) (k : Nat) (count : Nat) (_messages : List Msg) :
    Except PyErr (ChatResult × Nat) :=
  match env.complete k with
  | Except.error e => Except.error e
  | Except.ok fin => Except.ok (ChatResult.response fin.content, count)

/-- Embeds the `while count < MAX_LOOP` loop of `run_chat` with
`fuel = MAX_LOOP - count` and an explicit completion-call index `k`.
Each iteration increments `count`, asks for a completion, replaces
`tool_calls` with the result of `check_tool_call_in_text`, and either
executes the batch and loops, or appends the refine instruction and
returns the second completion.  Falling off the loop is the implicit
Python `return None`, recorded as `ChatResult.fellOff`. -/
def runChatLoop (env : Env) (inv : List StockItem) :
    Nat → Nat → Nat → List Msg → Except PyErr (ChatResult × Nat)
  | 0, count, _, _ => Except.ok (ChatResult.fellOff, count)
  | fuel + 1, count, k, messages =>
    match env.complete k with
    | Except.error e => Except.error e
    | Except.ok response_message =>
      let tool_calls :=
        truthyCalls
          (check_tool_call_in_text response_message.content response_message.tool_calls)
      if tool_calls.isEmpty then
        finalizeResponse env (k + 1) (count + 1)
          (messages ++ [Msg.user (refine_instruction response_message.content)])
      else
        match execToolCalls env.lightrag inv tool_calls
            (messages ++ [Msg.assistant response_message.content response_message.tool_calls]) with
        | Except.error e => Except.error e
        | Except.ok messages2 => runChatLoop env inv fuel (count + 1) (k + 1) messages2

/-- Embeds the `/run_chat` endpoint body: assign the request inventory
(to the process-global `product_stock_price`, passed on explicitly
here), build the initial messages, and run the loop.  The `Nat` in the
result is the final value of the loop counter `count`. -/
def run_chat (env : Env) (query : RunChatRequest) : Except PyErr (ChatResult × Nat) :=
  runChatLoop env query.Data_model_stock_price MAX_LOOP 0 0 (initMessages query)

/-!
Interleaving model for the process-global inventory.  `run_chat` does
`global product_stock_price; product_stock_price =
query.Data_model_stock_price` (src/main.py lines 270-271) and
`check_stock_logic` reads that global, so concurrent requests handled
by the same process share it.  `snap r` is the inventory snapshot
carried by request `r`; an `assign r` event is request r reaching lines
270-271, and a `lookup r q` event is request r running its stock tool.
-/

/-- One scheduler event of interleaved `run_chat` requests. -/
inductive StockEvent where
  | assign : Nat → StockEvent
  | lookup : Nat → String → StockEvent
deriving DecidableEq

/-- The value of the global `product_stock_price` after a prefix of
events, starting from `g`. -/
def foldInv (snap : Nat → List StockItem) : List StockEvent → List StockItem → List StockItem
  | [], g => g
  | StockEvent.assign r :: evs, _ => foldInv snap evs (snap r)
  | StockEvent.lookup _ _ :: evs, g => foldInv snap evs g

/-- Runs an interleaved schedule, producing for every lookup event the
request id, the query, and the result that request observes: the stock
lookup always reads the current global. -/
def runStockTrace (snap : Nat → List StockItem) :
    List StockEvent → List StockItem → List (Nat × String × Except PyErr String)
  | [], _ => []
  | StockEvent.assign r :: evs, _ => runStockTrace snap evs (snap r)
  | StockEvent.lookup r q :: evs, g =>
    (r, q, check_stock_logic g q) :: runStockTrace snap evs g

/-!
Observers over transcripts, and concrete fixtures used by witness and
counterexample theorems.
-/

/-- A tool name the executor dispatches on (its registry is the
`if`/`elif` chain of the loop). -/
def registeredTool (tc : ToolCall) : Bool :=
  isStrEq tc.name "lightrag_tool" || isStrEq tc.name "check_stock_logic"

/-- Whether a transcript message has the tool role. -/
def isToolMsg : Msg → Bool
  | Msg.tool _ _ _ => true
  | _ => false

/-- The call id and tool name carried by a tool-role message. -/
def toolMsgTag : Msg → String × JVal
  | Msg.tool i n _ => (i, n)
  | _ => ("", JVal.null)

/-- Fixture: a two-item inventory snapshot. -/
def invW : List StockItem :=
  [⟨some "Wave", some "45000", some 2⟩, ⟨some "PCX 160", some "91900", some 0⟩]

/-- Fixture: assistant text carrying a well-formed fallback tool call. -/
def tcTextW : String :=
  "<tool_call>\n\x7b\"name\": \"check_stock_logic\", \"arguments\": \x7b\"model_name\": \"Wave\"\x7d\x7d\n</tool_call>"

/-- Fixture: assistant text whose tool-call block wraps malformed JSON. -/
def badTextW : String := "<tool_call>\x7bbad</tool_call>"

/-- Fixture: a native structured tool call. -/
def natCallW : ToolCall :=
  ⟨"call_1", JVal.str "check_stock_logic", "\x7b\"model_name\": \"Wave\"\x7d"⟩

/-- Fixture: an extracted call to the stock tool. -/
def stockCallW : ToolCall :=
  ⟨"call_2", JVal.str "check_stock_logic", "\x7b\"model_name\": \"Wave\"\x7d"⟩

/-- Fixture: an extracted call to the RAG tool. -/
def ragCallW : ToolCall := ⟨"call_3", JVal.str "lightrag_tool", "\x7b\"query\": \"Wave specs\"\x7d"⟩

/-- Fixture: an extracted call whose tool name is in no registry
branch (the name exists only in the unused src/lib/tools.py schema). -/
def unkCallW : ToolCall := ⟨"call_9", JVal.str "web_search_tool", "\x7b\"query\": \"x\"\x7d"⟩

/-- Fixture: a LightRAG tool that answers every query. -/
def ragOkW : Option JVal → Except PyErr String := fun _ => Except.ok "rag result"

/-- Fixture: a LightRAG tool whose handler raises. -/
def ragBoomW : Option JVal → Except PyErr String :=
  fun _ => Except.error (PyErr.toolError "boom")

/-- Fixture: a request body. -/
def reqW : RunChatRequest := ⟨"มี Wave ไหมครับ", invW, []⟩

/-- Fixture: a model that emits a native structured tool call and then
plain answers. -/
def envNativeW : Env :=
  { complete := fun k =>
      if k == 0 then Except.ok ⟨some "Checking stock.", [natCallW]⟩
      else Except.ok ⟨some "final answer", []⟩
    lightrag := ragOkW }

/-- Fixture: a model that emits a fallback-markup tool call on every
completion, driving the loop to exhaustion. -/
def envLoopW : Env :=
  { complete := fun _ => Except.ok ⟨some tcTextW, []⟩
    lightrag := ragOkW }

/-- Fixture: a model that gives a plain draft, then a refined answer. -/
def envSimpleW : Env :=
  { complete := fun k =>
      if k == 0 then Except.ok ⟨some "draft answer", []⟩
      else Except.ok ⟨some "final answer", []⟩
    lightrag := ragOkW }

/-- Fixture: a model whose first completion is a plain draft and whose
second (the refinement stage) raises an API error. -/
def envFinalErrW : Env :=
  { complete := fun k =>
      if k == 0 then Except.ok ⟨some "draft answer", []⟩
      else Except.error (PyErr.apiError "rate limit")
    lightrag := ragOkW }

/-- Fixture: a model whose completion wraps malformed JSON in a
tool-call block, then plain answers. -/
def envBadW : Env :=
  { complete := fun k =>
      if k == 0 then Except.ok ⟨some badTextW, []⟩
      else Except.ok ⟨some "final answer", []⟩
    lightrag := ragOkW }

/-- Fixture: per-request inventory snapshots of two concurrent
requests; request 0 carries stock for Wave, request 1 carries an empty
snapshot. -/
def snapW : Nat → List StockItem :=
  fun r => if r == 0 then [⟨some "Wave", some "45000", some 2⟩] else []

/-!
Theorems.
-/

/-- Helper: when a completion yields no extracted tool calls, the loop
iteration appends the refine instruction and runs the finalizer. -/
lemma runChatLoop_no_calls (env : Env) (inv : List StockItem) (fuel count k : Nat)
    (messages : List Msg) (comp : Completion)
    (hc : env.complete k = Except.ok comp)
    (hx : check_tool_call_in_text comp.content comp.tool_calls = none) :
    runChatLoop env inv (fuel + 1) count k messages =
      finalizeResponse env (k + 1) (count + 1)
        (messages ++ [Msg.user (refine_instruction comp.content)]) := by
  simp [runChatLoop, hc, hx, truthyCalls]

/-- Claim C1 (refuted by the code): whenever the native structured
tool-call field is non-empty, `check_tool_call_in_text` returns `None`
— not the native calls — and since `run_chat` overwrites `tool_calls`
with this result, the iteration takes the no-tool-call branch and runs
the finalizer instead of executing the native calls. -/
theorem native_tool_calls_discarded (content : Option String) (tcs : List ToolCall)
    (h : tcs ≠ []) :
    check_tool_call_in_text content tcs = none ∧
    ∀ (env : Env) (inv : List StockItem) (fuel count k : Nat) (messages : List Msg),
      env.complete k = Except.ok ⟨content, tcs⟩ →
      runChatLoop env inv (fuel + 1) count k messages =
        finalizeResponse env (k + 1) (count + 1)
          (messages ++ [Msg.user (refine_instruction content)]) := by
  have h1 : check_tool_call_in_text content tcs = none := by
    cases content with
    | none => rfl
    | some s =>
      cases tcs with
      | nil => exact absurd rfl h
      | cons a as => simp [check_tool_call_in_text]
  refine ⟨h1, fun env inv fuel count k messages hc => ?_⟩
  exact runChatLoop_no_calls env inv fuel count k messages ⟨content, tcs⟩ hc h1

/-- Witness for `native_tool_calls_discarded` at a concrete completion
carrying one native stock-tool call. -/
theorem native_tool_calls_discarded_witness :
    check_tool_call_in_text (some "Checking stock.") [natCallW] = none ∧
    runChatLoop envNativeW invW 5 0 0 (initMessages reqW) =
      finalizeResponse envNativeW 1 1
        (initMessages reqW ++ [Msg.user (refine_instruction (some "Checking stock."))]) := by
  have h := native_tool_calls_discarded (some "Checking stock.") [natCallW] (by simp)
  exact ⟨h.1, h.2 envNativeW invW 4 0 0 (initMessages reqW) rfl⟩

/-- Claim C7: an assistant message with no native tool calls whose
tool-call block wraps malformed JSON yields no extracted calls, and the
loop iteration proceeds to the finalizer (treats the message as the
final plain-text answer) instead of raising. -/
theorem malformed_tool_call_is_final_answer (s : String) (block : List Char)
    (h1 : extractBlock s.data = some block)
    (h2 : parseJson (String.mk (pyStrip block)) = none) :
    check_tool_call_in_text (some s) [] = none ∧
    ∀ (env : Env) (inv : List StockItem) (fuel count k : Nat) (messages : List Msg),
      env.complete k = Except.ok ⟨some s, []⟩ →
      runChatLoop env inv (fuel + 1) count k messages =
        finalizeResponse env (k + 1) (count + 1)
          (messages ++ [Msg.user (refine_instruction (some s))]) := by
  have hfind : ∃ i, findSub openTag s.data = some i := by
    rcases hf : findSub openTag s.data with _ | i
    · rw [extractBlock, hf] at h1; cases h1
    · exact ⟨i, rfl⟩
  obtain ⟨i, hf⟩ := hfind
  have hne : s.data.isEmpty = false := by
    cases hd : s.data with
    | nil =>
      have h0 : findSub openTag ([] : List Char) = none := by decide
      rw [hd, h0] at hf; cases hf
    | cons c cs => rfl
  have hx : check_tool_call_in_text (some s) [] = none := by
    simp [check_tool_call_in_text, hne, hf, h1, h2]
  refine ⟨hx, fun env inv fuel count k messages hc => ?_⟩
  exact runChatLoop_no_calls env inv fuel count k messages ⟨some s, []⟩ hc hx

/-- Witness for `malformed_tool_call_is_final_answer` on the concrete
malformed block fixture. -/
theorem malformed_tool_call_is_final_answer_witness :
    check_tool_call_in_text (some badTextW) [] = none ∧
    runChatLoop envBadW invW 5 0 0 (initMessages reqW) =
      finalizeResponse envBadW 1 1
        (initMessages reqW ++ [Msg.user (refine_instruction (some badTextW))]) := by
  have h := malformed_tool_call_is_final_answer badTextW ("\x7bbad".data) rfl rfl
  exact ⟨h.1, h.2 envBadW invW 4 0 0 (initMessages reqW) rfl⟩

/-- Claim C5 (counterexample): when the refinement-stage completion
raises, `run_chat` propagates the error — the request fails, the
unrefined draft is not returned. -/
theorem finalizer_error_fails_request :
    run_chat envFinalErrW reqW = Except.error (PyErr.apiError "rate limit") ∧
    ∀ r : ChatResult × Nat,
      (Except.error (PyErr.apiError "rate limit") : Except PyErr (ChatResult × Nat)) ≠
        Except.ok r :=
  ⟨rfl, fun _ h => Except.noConfusion h⟩

/-- Claim C5 as amended: a model error in the response-finalizer stage
propagates out of the loop as that error instead of returning the
unrefined draft. -/
theorem finalizer_error_propagates (env : Env) (inv : List StockItem)
    (fuel count k : Nat) (messages : List Msg) (comp : Completion) (e : PyErr)
    (hc : env.complete k = Except.ok comp)
    (hx : check_tool_call_in_text comp.content comp.tool_calls = none)
    (hf : env.complete (k + 1) = Except.error e) :
    runChatLoop env inv (fuel + 1) count k messages = Except.error e := by
  rw [runChatLoop_no_calls env inv fuel count k messages comp hc hx]
  simp [finalizeResponse, hf]

/-- Witness for `finalizer_error_propagates` on the concrete fixture
whose second completion raises an API error. -/
theorem finalizer_error_propagates_witness :
    runChatLoop envFinalErrW invW 5 0 0 (initMessages reqW) =
      Except.error (PyErr.apiError "rate limit") :=
  finalizer_error_propagates envFinalErrW invW 4 0 0 (initMessages reqW)
    ⟨some "draft answer", []⟩ (PyErr.apiError "rate limit") rfl rfl rfl

/-- Helper: the loop counter at exit never exceeds its entry value plus
the remaining fuel. -/
lemma runChatLoop_count_le (env : Env) (inv : List StockItem) :
    ∀ (fuel count k : Nat) (messages : List Msg) (r : ChatResult) (n : Nat),
      runChatLoop env inv fuel count k messages = Except.ok (r, n) → n ≤ count + fuel := by
  intro fuel
  induction fuel with
  | zero =>
    intro count k messages r n h
    simp [runChatLoop] at h
    omega
  | succ fuel ih =>
    intro count k messages r n h
    rw [runChatLoop] at h
    cases hc : env.complete k with
    | error e => rw [hc] at h; cases h
    | ok resp =>
      rw [hc] at h
      simp only [] at h
      by_cases hemp :
          (truthyCalls (check_tool_call_in_text resp.content resp.tool_calls)).isEmpty
      · rw [if_pos hemp] at h
        rw [finalizeResponse] at h
        cases hfin : env.complete (k + 1) with
        | error e => rw [hfin] at h; cases h
        | ok fin =>
          rw [hfin] at h
          simp at h
          omega
      · rw [if_neg hemp] at h
        cases hex : execToolCalls env.lightrag inv
            (truthyCalls (check_tool_call_in_text resp.content resp.tool_calls))
            (messages ++ [Msg.assistant resp.content resp.tool_calls]) with
        | error e => rw [hex] at h; cases h
        | ok messages2 =>
          rw [hex] at h
          have := ih (count + 1) (k + 1) messages2 r n h
          omega

/-- Claim C2 (counterexample): when every completion keeps requesting
tools, the loop runs its five iterations and then falls off the
`while`, so `run_chat` implicitly returns Python `None` — not the last
assistant message and not an apologetic fallback string. -/
theorem loop_exhaustion_returns_python_none :
    run_chat envLoopW reqW = Except.ok (ChatResult.fellOff, 5) ∧
    ∀ (s : String) (n : Nat),
      (Except.ok (ChatResult.fellOff, 5) : Except PyErr (ChatResult × Nat)) ≠
        Except.ok (ChatResult.response (some s), n) := by
  refine ⟨rfl, ?_⟩
  intro s n h
  simp at h

/-- Claim C2 as amended: the loop counter of `run_chat` never exceeds
`MAX_LOOP`; on exhaustion the function returns the implicit Python
`None` (no response string) without raising, as recorded by
`ChatResult.fellOff` in `loop_exhaustion_returns_python_none`. -/
theorem run_chat_iteration_bound (env : Env) (query : RunChatRequest)
    (r : ChatResult) (n : Nat) (h : run_chat env query = Except.ok (r, n)) :
    n ≤ MAX_LOOP := by
  have hb := runChatLoop_count_le env query.Data_model_stock_price MAX_LOOP 0 0
    (initMessages query) r n h
  simpa using hb

/-- Witness for `run_chat_iteration_bound` on a concrete two-completion
conversation that finishes in one iteration. -/
theorem run_chat_iteration_bound_witness :
    run_chat envSimpleW reqW = Except.ok (ChatResult.response (some "final answer"), 1) ∧
    1 ≤ MAX_LOOP :=
  ⟨rfl, run_chat_iteration_bound envSimpleW reqW (ChatResult.response (some "final answer"))
    1 rfl⟩

/-- Claim C3 (counterexample): an exception inside the `lightrag_tool`
handler is not caught by the executor — the whole batch (here one more
stock call was pending) aborts with the error and no fallback string is
appended. -/
theorem tool_exception_aborts_batch :
    execToolCalls ragBoomW invW [ragCallW, stockCallW] (initMessages reqW) =
      Except.error (PyErr.toolError "boom") ∧
    ∀ ms : List Msg,
      (Except.error (PyErr.toolError "boom") : Except PyErr (List Msg)) ≠ Except.ok ms :=
  ⟨rfl, fun _ h => Except.noConfusion h⟩

/-- Claim C3 as amended: when a tool handler raises, the executor
propagates the exception; the remaining calls of the batch are not
executed and nothing is appended for them. -/
theorem lightrag_exception_propagates (oracle : Option JVal → Except PyErr String)
    (inv : List StockItem) (tc : ToolCall) (rest : List ToolCall)
    (messages : List Msg) (e : PyErr) (args : JVal) (q : Option JVal)
    (h1 : parseJson tc.arguments = some args)
    (h2 : isStrEq tc.name "lightrag_tool" = true)
    (h3 : pyGet args "query" = Except.ok q)
    (h4 : oracle q = Except.error e) :
    execToolCalls oracle inv (tc :: rest) messages = Except.error e := by
  simp [execToolCalls, h1, h2, h3, h4]

/-- Witness for `lightrag_exception_propagates` on the concrete failing
LightRAG fixture. -/
theorem lightrag_exception_propagates_witness :
    execToolCalls ragBoomW invW [ragCallW, stockCallW] [] =
      Except.error (PyErr.toolError "boom") :=
  lightrag_exception_propagates ragBoomW invW ragCallW [stockCallW] []
    (PyErr.toolError "boom") (JVal.obj [("query", JVal.str "Wave specs")])
    (some (JVal.str "Wave specs")) rfl rfl rfl rfl

/-- Claim C8: a tool call whose name matches no registry branch is
skipped — the batch continues exactly as if the call were absent, so
every remaining valid call still executes and appends its result. -/
theorem unknown_tool_skipped (oracle : Option JVal → Except PyErr String)
    (inv : List StockItem) (tc : ToolCall) (rest : List ToolCall)
    (messages : List Msg) (args : JVal)
    (h1 : parseJson tc.arguments = some args)
    (h2 : isStrEq tc.name "lightrag_tool" = false)
    (h3 : isStrEq tc.name "check_stock_logic" = false) :
    execToolCalls oracle inv (tc :: rest) messages =
      execToolCalls oracle inv rest messages := by
  simp [execToolCalls, h1, h2, h3]

/-- Witness for `unknown_tool_skipped`: a `web_search_tool` call is
skipped and the following stock call still runs. -/
theorem unknown_tool_skipped_witness :
    execToolCalls ragOkW invW [unkCallW, stockCallW] (initMessages reqW) =
      execToolCalls ragOkW invW [stockCallW] (initMessages reqW) :=
  unknown_tool_skipped ragOkW invW unkCallW [stockCallW] (initMessages reqW)
    (JVal.obj [("query", JVal.str "x")]) rfl rfl rfl


/-- Claim C4 (counterexample): a batch consisting of one call with an
unregistered tool name yields zero appended tool-role messages, not one
per requested call. -/
theorem unknown_tool_breaks_per_call_invariant :
    execToolCalls ragOkW invW [unkCallW] [] = Except.ok [] ∧
    ([] : List Msg).length ≠ [unkCallW].length :=
  ⟨rfl, by decide⟩

/-- Claim C4 as amended: whenever the executor finishes a batch, the
transcript is extended by exactly one tool-role message per call whose
name is registered (`lightrag_tool` or `check_stock_logic`), in request
order, each tagged with the call id and name of its originating
request; unregistered calls contribute no message. -/
theorem transcript_tool_messages_per_registered_call
    (oracle : Option JVal → Except PyErr String) (inv : List StockItem) :
    ∀ (calls : List ToolCall) (messages msgs2 : List Msg),
      execToolCalls oracle inv calls messages = Except.ok msgs2 →
      ∃ appended : List Msg,
        msgs2 = messages ++ appended ∧
        appended.map toolMsgTag =
          (calls.filter registeredTool).map (fun tc => (tc.id, tc.name)) ∧
        ∀ m ∈ appended, isToolMsg m = true := by
  intro calls
  induction calls with
  | nil =>
    intro messages msgs2 h
    simp [execToolCalls] at h
    exact ⟨[], by simp [h], by simp, by simp⟩
  | cons tc rest ih =>
    intro messages msgs2 h
    rw [execToolCalls] at h
    cases hp : parseJson tc.arguments with
    | none => simp only [hp] at h; exact Except.noConfusion h
    | some args =>
      simp only [hp] at h
      cases hl : isStrEq tc.name "lightrag_tool" with
      | true =>
        simp only [hl, if_true] at h
        cases hq : pyGet args "query" with
        | error e => simp only [hq] at h; exact Except.noConfusion h
        | ok q =>
          simp only [hq] at h
          cases ho : oracle q with
          | error e => simp only [ho] at h; exact Except.noConfusion h
          | ok out =>
            simp only [ho] at h
            obtain ⟨app, happ, htag, htool⟩ := ih _ _ h
            refine ⟨Msg.tool tc.id tc.name out :: app, ?_, ?_, ?_⟩
            · rw [happ]; simp
            · simp only [List.map_cons, List.filter_cons, registeredTool, hl,
                Bool.true_or, if_true, toolMsgTag, htag]
            · intro m hm
              cases List.mem_cons.mp hm with
              | inl h1 => rw [h1]; rfl
              | inr h1 => exact htool m h1
      | false =>
        simp only [hl, Bool.false_eq_true, if_false] at h
        cases hs : isStrEq tc.name "check_stock_logic" with
        | true =>
          simp only [hs, if_true] at h
          cases hq : pyGet args "model_name" with
          | error e => simp only [hq] at h; exact Except.noConfusion h
          | ok mv =>
            simp only [hq] at h
            cases ho : checkStockCall inv mv with
            | error e => simp only [ho] at h; exact Except.noConfusion h
            | ok out =>
              simp only [ho] at h
              obtain ⟨app, happ, htag, htool⟩ := ih _ _ h
              refine ⟨Msg.tool tc.id tc.name out :: app, ?_, ?_, ?_⟩
              · rw [happ]; simp
              · simp only [List.map_cons, List.filter_cons, registeredTool, hl, hs,
                  Bool.false_eq_true, Bool.false_or, if_true, toolMsgTag, htag]
              · intro m hm
                cases List.mem_cons.mp hm with
                | inl h1 => rw [h1]; rfl
                | inr h1 => exact htool m h1
        | false =>
          simp only [hs, Bool.false_eq_true, if_false] at h
          obtain ⟨app, happ, htag, htool⟩ := ih _ _ h
          refine ⟨app, happ, ?_, htool⟩
          simp only [List.filter_cons, registeredTool, hl, hs, Bool.false_eq_true,
            Bool.false_or, Bool.or_self, if_false, htag]

/-- Witness for `transcript_tool_messages_per_registered_call` on a
concrete one-call batch. -/
theorem transcript_tool_messages_witness :
    ∃ appended : List Msg,
      (initMessages reqW ++
          [Msg.tool "call_2" (JVal.str "check_stock_logic")
            "Model: Wave, Price: 45000, Stock: 2"]) =
        initMessages reqW ++ appended ∧
      appended.map toolMsgTag =
        ([stockCallW].filter registeredTool).map (fun tc => (tc.id, tc.name)) ∧
      ∀ m ∈ appended, isToolMsg m = true :=
  transcript_tool_messages_per_registered_call ragOkW invW [stockCallW]
    (initMessages reqW) _ rfl

/-- Helper: an interleaved schedule decomposes at any split point, the
suffix running against the last assigned global. -/
lemma runStockTrace_append (snap : Nat → List StockItem) :
    ∀ (evs1 evs2 : List StockEvent) (g : List StockItem),
      runStockTrace snap (evs1 ++ evs2) g =
        runStockTrace snap evs1 g ++ runStockTrace snap evs2 (foldInv snap evs1 g) := by
  intro evs1
  induction evs1 with
  | nil => intro evs2 g; simp [runStockTrace, foldInv]
  | cons ev rest ih =>
    intro evs2 g
    cases ev with
    | assign r => simp [runStockTrace, foldInv, ih]
    | lookup r q => simp [runStockTrace, foldInv, ih]

/-- Claim C6 (counterexample): with the inventory held in a
process-wide global, a lookup of request 0 scheduled after request 1
overwrote the global returns the result for request 1's snapshot — the
item in request 0's own snapshot is reported not found. -/
theorem concurrent_request_sees_other_snapshot :
    runStockTrace snapW
        [StockEvent.assign 0, StockEvent.assign 1, StockEvent.lookup 0 "Wave"] [] =
      [(0, "Wave", Except.ok (notFoundLine "Wave"))] ∧
    check_stock_logic (snapW 0) "Wave" =
      Except.ok (availableLine "Wave" "45000" 2) ∧
    notFoundLine "Wave" ≠ availableLine "Wave" "45000" 2 :=
  ⟨rfl, rfl, by decide⟩

/-- Claim C6 as amended: a stock lookup reads whatever snapshot was
assigned to the global most recently by any request; in particular it
returns the result for the request's own snapshot exactly when that
request's assignment is the latest one. -/
theorem stock_lookup_sees_last_assignment (snap : Nat → List StockItem)
    (evs1 : List StockEvent) (r : Nat) (q : String) (evs2 : List StockEvent)
    (g0 : List StockItem) (h : foldInv snap evs1 g0 = snap r) :
    runStockTrace snap (evs1 ++ StockEvent.lookup r q :: evs2) g0 =
      runStockTrace snap evs1 g0 ++
        (r, q, check_stock_logic (snap r) q) :: runStockTrace snap evs2 (snap r) := by
  rw [runStockTrace_append, h]
  simp [runStockTrace]

/-- Witness for `stock_lookup_sees_last_assignment`: request 0 assigned
last, so its lookup sees its own snapshot. -/
theorem stock_lookup_sees_last_assignment_witness :
    runStockTrace snapW
        ([StockEvent.assign 1, StockEvent.assign 0] ++
          StockEvent.lookup 0 "Wave" :: []) [] =
      runStockTrace snapW [StockEvent.assign 1, StockEvent.assign 0] [] ++
        (0, "Wave", check_stock_logic (snapW 0) "Wave") ::
          runStockTrace snapW [] (snapW 0) :=
  stock_lookup_sees_last_assignment snapW [StockEvent.assign 1, StockEvent.assign 0]
    0 "Wave" [] [] rfl

/-- Claim C9 (counterexample): on an empty inventory the special query
`ALL` does not return the full listing — the `elif` sits inside the
`for` loop, whose body never runs, so the not-found string is returned. -/
theorem all_query_on_empty_inventory_not_found :
    create_check_stock_logic [] "ALL" = notFoundLineTools "ALL" ∧
    notFoundLineTools "ALL" ≠ fullInventoryListing [] :=
  ⟨rfl, by decide⟩

/-- Claim C9 as amended: for every non-empty inventory whose first item
is not itself named `ALL` (case-insensitively), the query `ALL` returns
the full listing enumerating every item with price and stock status. -/
theorem all_query_returns_full_listing (item : StockItem) (rest : List StockItem)
    (h : matchesName "ALL" item = false) :
    create_check_stock_logic (item :: rest) "ALL" =
      fullInventoryListing (item :: rest) := by
  have hA : (pyUpper "ALL" == "ALL") = true := by decide
  simp [create_check_stock_logic, checkStockToolsLoop, h, hA]

/-- Witness for `all_query_returns_full_listing` on the two-item
inventory fixture. -/
theorem all_query_returns_full_listing_witness :
    create_check_stock_logic invW "ALL" = fullInventoryListing invW :=
  all_query_returns_full_listing ⟨some "Wave", some "45000", some 2⟩
    [⟨some "PCX 160", some "91900", some 0⟩] (by decide)

/-- Helper: the tools-module lookup loop is first-match search under
exact case-insensitive name equality, provided the query is not `ALL`. -/
lemma checkStockToolsLoop_find (inv : List StockItem) (q : String)
    (hq : (pyUpper q == "ALL") = false) :
    ∀ l : List StockItem,
      checkStockToolsLoop inv l q =
        (match l.find? (matchesName q) with
         | some item => stockHitTools q item
         | none => notFoundLineTools q) := by
  intro l
  induction l with
  | nil => simp [checkStockToolsLoop]
  | cons item rest ih =>
    cases hm : matchesName q item with
    | true => simp [checkStockToolsLoop, hm, List.find?_cons_of_pos _ hm]
    | false =>
      simp [checkStockToolsLoop, hm, hq, List.find?_cons_of_neg, ih]

/-- Helper: the src/main.py stock lookup is first-match search under
exact case-insensitive name equality. -/
lemma check_stock_logic_find (q : String) :
    ∀ l : List StockItem,
      check_stock_logic l q =
        (match l.find? (matchesName q) with
         | some item => stockHitMain q item
         | none => Except.ok (notFoundLine q)) := by
  intro l
  induction l with
  | nil => simp [check_stock_logic]
  | cons item rest ih =>
    cases hm : matchesName q item with
    | true => simp [check_stock_logic, hm, List.find?_cons_of_pos _ hm]
    | false => simp [check_stock_logic, hm, List.find?_cons_of_neg, ih]

/-- Claim C10: both stock lookups (the src/lib/tools.py closure and the
src/main.py function) match inventory items only by exact
case-insensitive equality of `product_name` with the query, answer from
the first match, and return the not-found result for any query (other
than `ALL`) matching no item — e.g. a strict substring never matches. -/
theorem stock_match_exact_case_insensitive (inv : List StockItem) (q : String)
    (hq : (pyUpper q == "ALL") = false) :
    create_check_stock_logic inv q =
      (match inv.find? (matchesName q) with
       | some item => stockHitTools q item
       | none => notFoundLineTools q) ∧
    check_stock_logic inv q =
      (match inv.find? (matchesName q) with
       | some item => stockHitMain q item
       | none => Except.ok (notFoundLine q)) :=
  ⟨by rw [create_check_stock_logic]; exact checkStockToolsLoop_find inv q hq inv,
   check_stock_logic_find q inv⟩

/-- Witness for `stock_match_exact_case_insensitive`: the substring
query `PCX` against an inventory whose only item is `PCX 160` is not
found by either lookup. -/
theorem stock_match_exact_case_insensitive_witness :
    create_check_stock_logic [⟨some "PCX 160", some "91900", some 5⟩] "PCX" =
      notFoundLineTools "PCX" ∧
    check_stock_logic [⟨some "PCX 160", some "91900", some 5⟩] "PCX" =
      Except.ok (notFoundLine "PCX") := by
  have h := stock_match_exact_case_insensitive
    [⟨some "PCX 160", some "91900", some 5⟩] "PCX" (by decide)
  exact ⟨h.1.trans rfl, h.2.trans rfl⟩
